import Mathlib

/-
  Verification of the hacknight-git frontend (SmartInvest.ai / FinanceGPT demo).

  The repository ships a Next.js presentation layer with two variants of the
  StockAnalysis component (an older one without the news section, called V1
  below, and a newer one with it), plus the home page.  All numeric JS values
  are modelled as exact rationals; JS property access and the || operator are
  modelled explicitly where the source uses them.
-/

/-! ## Sentiment label and color mappings

Source: StockAnalysis (newer variant), getSentimentLabel / getSentimentColor,
and the identical pair in the older StockAnalysis variant; the inline badge
mapping on article cards; and the inline badge mapping on the home page. -/

/-- getSentimentLabel from the newer StockAnalysis variant:
score > 0.1 is Bullish, score < -0.1 is Bearish, otherwise Neutral. -/
def getSentimentLabel (score : ℚ) : String :=
  if score > 0.1 then "Bullish"
  else if score < -0.1 then "Bearish"
  else "Neutral"

/-- getSentimentLabel from the older StockAnalysis variant (identical body). -/
def getSentimentLabelV1 (score : ℚ) : String :=
  if score > 0.1 then "Bullish"
  else if score < -0.1 then "Bearish"
  else "Neutral"

/-- getSentimentColor from the newer StockAnalysis variant. -/
def getSentimentColor (score : ℚ) : String :=
  if score > 0.1 then "text-green-600 bg-green-100"
  else if score < -0.1 then "text-red-600 bg-red-100"
  else "text-gray-600 bg-gray-100"

/-- getSentimentColor from the older StockAnalysis variant (identical body). -/
def getSentimentColorV1 (score : ℚ) : String :=
  if score > 0.1 then "text-green-600 bg-green-100"
  else if score < -0.1 then "text-red-600 bg-red-100"
  else "text-gray-600 bg-gray-100"

/-- Inline badge label on each article card in the newer StockAnalysis
variant: sentiment_score > 0.1 is Positive, < -0.1 is Negative, else Neutral. -/
def articleBadgeLabel (sentiment_score : ℚ) : String :=
  if sentiment_score > 0.1 then "Positive"
  else if sentiment_score < -0.1 then "Negative"
  else "Neutral"

/-- Inline badge label on the home page news cards (page.tsx): same mapping. -/
def homeNewsBadgeLabel (sentiment_score : ℚ) : String :=
  if sentiment_score > 0.1 then "Positive"
  else if sentiment_score < -0.1 then "Negative"
  else "Neutral"

/-! ## Typed data model

Mirrors the TypeScript interfaces of the newer StockAnalysis variant and the
backend response shape read by its transform.  JS numbers are exact rationals
here; a missing/null JSON value is an Option none. -/

/-- NewsArticle interface of the newer StockAnalysis variant. -/
structure NewsArticle where
  title : String
  description : String
  content : String
  url : String
  source : String
  published_at : String
  sentiment_score : ℚ
deriving DecidableEq

/-- The sentiment part of the AnalysisData interface. -/
structure SentimentData where
  overall_sentiment : ℚ
  positive_count : ℚ
  negative_count : ℚ
  neutral_count : ℚ
  confidence : ℚ
deriving DecidableEq

/-- The fundamentals part of the AnalysisData interface. -/
structure FundamentalsData where
  pe_ratio : ℚ
  pb_ratio : ℚ
  roe : ℚ
  market_cap : ℚ
  rsi : ℚ
  volatility : ℚ
deriving DecidableEq

/-- The recommendation part of the AnalysisData interface.  The confidence is
an Option: none models the JS NaN that undefined * 100 would produce when the
backend omits confidence_score. -/
structure RecommendationData where
  action : String
  confidence : Option ℚ
  reasoning : List String
deriving DecidableEq

/-- AnalysisData: the UI model rendered by the newer StockAnalysis variant. -/
structure AnalysisData where
  symbol : String
  sentiment : SentimentData
  fundamentals : FundamentalsData
  recommendation : RecommendationData
  news_articles : List NewsArticle
deriving DecidableEq

/-- fundamental_metrics of the backend response, as read by the transform. -/
structure FundamentalMetrics where
  trailing_pe : ℚ
  price_to_book : ℚ
  return_on_equity : ℚ
  market_cap : ℚ
deriving DecidableEq

/-- momentum_indicators of the backend response. -/
structure MomentumIndicators where
  RSI : ℚ
deriving DecidableEq

/-- technical_indicators of the backend response. -/
structure TechnicalIndicators where
  momentum_indicators : MomentumIndicators
deriving DecidableEq

/-- risk_metrics of the backend response. -/
structure RiskMetrics where
  volatility : ℚ
deriving DecidableEq

/-- fundamental_analysis of the backend response. -/
structure FundamentalAnalysisResp where
  fundamental_metrics : FundamentalMetrics
  technical_indicators : TechnicalIndicators
  risk_metrics : RiskMetrics
deriving DecidableEq

/-- sentiment_analysis of the backend response; news_articles is none when the
field is null or absent. -/
structure SentimentAnalysisResp where
  overall_sentiment : ℚ
  positive_count : ℚ
  negative_count : ℚ
  neutral_count : ℚ
  news_articles : Option (List NewsArticle)
deriving DecidableEq

/-- recommendation of the backend response; confidence_score is none when the
field is null or absent. -/
structure RecommendationResp where
  action : String
  confidence_score : Option ℚ
  supporting_factors : List String
deriving DecidableEq

/-- complete_analysis of the backend response. -/
structure CompleteAnalysisResp where
  sentiment_analysis : SentimentAnalysisResp
  fundamental_analysis : FundamentalAnalysisResp
  recommendation : RecommendationResp
deriving DecidableEq

/-- Top level of a parsed response to GET /analysis/complete/symbol. -/
structure BackendResponse where
  symbol : String
  complete_analysis : CompleteAnalysisResp
deriving DecidableEq

/-- JS || with a numeric left operand: returns the default when the left value
is falsy, i.e. null/undefined (none) or 0.  NaN, also falsy, has no rational
representation and is not produced by the one call site (confidence_score). -/
def jsOrNum (v : Option ℚ) (default : ℚ) : ℚ :=
  match v with
  | some q => if q = 0 then default else q
  | none => default

/-- JS || with an array left operand: an array (even empty) is truthy, so only
null/undefined (none) falls through to the default empty list. -/
def jsOrArticles (v : Option (List NewsArticle)) : List NewsArticle :=
  match v with
  | some l => l
  | none => []

/-- transformedData from fetchAnalysis in the newer StockAnalysis variant:
reshapes the backend response into the AnalysisData UI model.  The source
multiplies return_on_equity, volatility and confidence_score by 100, applies
the || 0.85 fallback to confidence_score and the || [] fallback to
news_articles. -/
def transformedData (data : BackendResponse) : AnalysisData :=
  { symbol := data.symbol
    sentiment :=
      { overall_sentiment := data.complete_analysis.sentiment_analysis.overall_sentiment
        positive_count := data.complete_analysis.sentiment_analysis.positive_count
        negative_count := data.complete_analysis.sentiment_analysis.negative_count
        neutral_count := data.complete_analysis.sentiment_analysis.neutral_count
        confidence := jsOrNum data.complete_analysis.recommendation.confidence_score 0.85 }
    fundamentals :=
      { pe_ratio := data.complete_analysis.fundamental_analysis.fundamental_metrics.trailing_pe
        pb_ratio := data.complete_analysis.fundamental_analysis.fundamental_metrics.price_to_book
        roe := data.complete_analysis.fundamental_analysis.fundamental_metrics.return_on_equity * 100
        market_cap := data.complete_analysis.fundamental_analysis.fundamental_metrics.market_cap
        rsi := data.complete_analysis.fundamental_analysis.technical_indicators.momentum_indicators.RSI
        volatility := data.complete_analysis.fundamental_analysis.risk_metrics.volatility * 100 }
    recommendation :=
      { action := data.complete_analysis.recommendation.action
        confidence := Option.map (fun q => q * 100) data.complete_analysis.recommendation.confidence_score
        reasoning := data.complete_analysis.recommendation.supporting_factors }
    news_articles := jsOrArticles data.complete_analysis.sentiment_analysis.news_articles }

/-- The hardcoded mock object the newer StockAnalysis variant installs in the
catch branch of fetchAnalysis ("Mock data for demo"). -/
def mockAnalysisData (symbol : String) : AnalysisData :=
  { symbol := symbol
    sentiment :=
      { overall_sentiment := 0.25
        positive_count := 12
        negative_count := 5
        neutral_count := 8
        confidence := 0.85 }
    fundamentals :=
      { pe_ratio := 30.48
        pb_ratio := 43.97
        roe := 138.02
        market_cap := 3020000000000
        rsi := 43.4
        volatility := 32.25 }
    recommendation :=
      { action := "Buy"
        confidence := some 80
        reasoning :=
          ["Strong fundamental metrics with healthy P/E ratio",
           "Positive sentiment trend in recent news",
           "Technical indicators showing oversold condition"] }
    news_articles := [] }

/-- Outcome of the fetch to /analysis/complete/symbol, as observable by the
component: a network error, or an HTTP response with its ok flag and its body
(none when the body does not parse as the expected JSON). -/
inductive FetchOutcome where
  | networkError
  | httpResponse (ok : Bool) (body : Option BackendResponse)

/-- fetchAnalysis of the newer StockAnalysis variant, as the analysis state it
installs: a thrown error (network failure, a non-ok response via the
response.ok check, or a body that fails to parse) lands in the catch branch
and installs the mock; a parsed ok response is transformed. -/
def fetchAnalysis (symbol : String) : FetchOutcome → AnalysisData
  | FetchOutcome.networkError => mockAnalysisData symbol
  | FetchOutcome.httpResponse false _ => mockAnalysisData symbol
  | FetchOutcome.httpResponse true none => mockAnalysisData symbol
  | FetchOutcome.httpResponse true (some data) => transformedData data

/-- Sentiment confidence as the UI prints it (a percentage): the render does
(confidence * 100).toFixed(0) with a percent sign. -/
def displayedSentimentConfidencePercent (d : AnalysisData) : ℚ :=
  d.sentiment.confidence * 100

/-- Recommendation confidence as the UI prints it (a percentage): the render
prints the stored confidence directly with a percent sign. -/
def displayedRecommendationConfidencePercent (d : AnalysisData) : Option ℚ :=
  d.recommendation.confidence

/-! ## Raw JSON layer

The transform in the newer StockAnalysis variant runs on a parsed JSON value
of unknown shape; this layer models JS values and property access so that
dependence on field paths can be stated.  Property access on a non-object (or
a missing key) is modelled as undefined; the exception JS would raise when
dereferencing undefined further is not modelled, since the claims about this
transform concern successful, contract-shaped responses. -/

/-- A parsed JS value: undefined, null, NaN (kept as its own constructor),
booleans, exact rational numbers, strings, arrays and objects. -/
inductive JsValue where
  | undef
  | null
  | nan
  | bool (b : Bool)
  | num (q : ℚ)
  | str (s : String)
  | arr (elems : List JsValue)
  | obj (members : List (String × JsValue))

/-- JS property access: the first member with the key, else undefined. -/
def JsValue.get (v : JsValue) (key : String) : JsValue :=
  match v with
  | JsValue.obj members =>
    match members.find? (fun kv => kv.1 == key) with
    | some kv => kv.2
    | none => JsValue.undef
  | _ => JsValue.undef

/-- Chained property access along a path of keys. -/
def JsValue.getPath (v : JsValue) (path : List String) : JsValue :=
  path.foldl JsValue.get v

/-- JS truthiness: undefined, null, NaN, false, 0 and the empty string are
falsy; every array and object is truthy. -/
def JsValue.truthy : JsValue → Bool
  | JsValue.undef => false
  | JsValue.null => false
  | JsValue.nan => false
  | JsValue.bool b => b
  | JsValue.num q => decide (q ≠ 0)
  | JsValue.str s => decide (s ≠ "")
  | JsValue.arr _ => true
  | JsValue.obj _ => true

/-- JS ||: the left operand when truthy, else the right operand. -/
def jsOr (a b : JsValue) : JsValue :=
  if a.truthy then a else b

/-- JS multiplication by a numeric literal: numbers multiply exactly; any
non-number in that position coerces to NaN for the values the contract can
carry there (undefined, null only coerces to 0, but the source positions are
specified as numbers; string coercion is not modelled). -/
def JsValue.mulConst (v : JsValue) (c : ℚ) : JsValue :=
  match v with
  | JsValue.num q => JsValue.num (q * c)
  | _ => JsValue.nan

/-- Sentiment part of the UI model with raw JS values. -/
structure JSentimentData where
  overall_sentiment : JsValue
  positive_count : JsValue
  negative_count : JsValue
  neutral_count : JsValue
  confidence : JsValue

/-- Fundamentals part of the UI model with raw JS values. -/
structure JFundamentalsData where
  pe_ratio : JsValue
  pb_ratio : JsValue
  roe : JsValue
  market_cap : JsValue
  rsi : JsValue
  volatility : JsValue

/-- Recommendation part of the UI model with raw JS values. -/
structure JRecommendationData where
  action : JsValue
  confidence : JsValue
  reasoning : JsValue

/-- The UI model built by the transform, with raw JS values. -/
structure JAnalysisData where
  symbol : JsValue
  sentiment : JSentimentData
  fundamentals : JFundamentalsData
  recommendation : JRecommendationData
  news_articles : JsValue

/-- transformedData of the newer StockAnalysis variant, over the raw parsed
JSON: every field access chain is written exactly as in the source. -/
def transformedDataJson (data : JsValue) : JAnalysisData :=
  { symbol := data.get "symbol"
    sentiment :=
      { overall_sentiment :=
          ((data.get "complete_analysis").get "sentiment_analysis").get "overall_sentiment"
        positive_count :=
          ((data.get "complete_analysis").get "sentiment_analysis").get "positive_count"
        negative_count :=
          ((data.get "complete_analysis").get "sentiment_analysis").get "negative_count"
        neutral_count :=
          ((data.get "complete_analysis").get "sentiment_analysis").get "neutral_count"
        confidence :=
          jsOr (((data.get "complete_analysis").get "recommendation").get "confidence_score")
            (JsValue.num 0.85) }
    fundamentals :=
      { pe_ratio :=
          (((data.get "complete_analysis").get "fundamental_analysis").get
            "fundamental_metrics").get "trailing_pe"
        pb_ratio :=
          (((data.get "complete_analysis").get "fundamental_analysis").get
            "fundamental_metrics").get "price_to_book"
        roe :=
          ((((data.get "complete_analysis").get "fundamental_analysis").get
            "fundamental_metrics").get "return_on_equity").mulConst 100
        market_cap :=
          (((data.get "complete_analysis").get "fundamental_analysis").get
            "fundamental_metrics").get "market_cap"
        rsi :=
          ((((data.get "complete_analysis").get "fundamental_analysis").get
            "technical_indicators").get "momentum_indicators").get "RSI"
        volatility :=
          ((((data.get "complete_analysis").get "fundamental_analysis").get
            "risk_metrics").get "volatility").mulConst 100 }
    recommendation :=
      { action := ((data.get "complete_analysis").get "recommendation").get "action"
        confidence :=
          (((data.get "complete_analysis").get "recommendation").get
            "confidence_score").mulConst 100
        reasoning := ((data.get "complete_analysis").get "recommendation").get "supporting_factors" }
    news_articles :=
      jsOr (((data.get "complete_analysis").get "sentiment_analysis").get "news_articles")
        (JsValue.arr []) }

/-- The field paths of the /analysis/complete response contract that the
presentation layer is specified to read (fundamental_metrics as a whole
subobject covers the four ratio fields the transform takes from it). -/
def contractPaths : List (List String) :=
  [["symbol"],
   ["complete_analysis", "sentiment_analysis", "overall_sentiment"],
   ["complete_analysis", "sentiment_analysis", "positive_count"],
   ["complete_analysis", "sentiment_analysis", "negative_count"],
   ["complete_analysis", "sentiment_analysis", "neutral_count"],
   ["complete_analysis", "sentiment_analysis", "news_articles"],
   ["complete_analysis", "fundamental_analysis", "fundamental_metrics"],
   ["complete_analysis", "fundamental_analysis", "technical_indicators",
    "momentum_indicators", "RSI"],
   ["complete_analysis", "fundamental_analysis", "risk_metrics", "volatility"],
   ["complete_analysis", "recommendation", "action"],
   ["complete_analysis", "recommendation", "confidence_score"],
   ["complete_analysis", "recommendation", "supporting_factors"]]

/-! ## Older StockAnalysis variant (V1)

Its fetchAnalysis has no response.ok check and no transform: the parsed JSON
body is installed as the analysis state as-is, so it is modelled at the raw
JSON level. -/

/-- Outcome of the V1 fetch: network error, or an HTTP response with its ok
flag and raw parsed body (none when the body fails to parse as JSON). -/
inductive JsFetchOutcome where
  | networkError
  | httpResponse (ok : Bool) (body : Option JsValue)

/-- The hardcoded mock object of the older StockAnalysis variant, as the JSON
value it stores (same constants as the newer variant, without the
news_articles field). -/
def mockAnalysisJsonV1 (symbol : String) : JsValue :=
  JsValue.obj
    [("symbol", JsValue.str symbol),
     ("sentiment", JsValue.obj
       [("overall_sentiment", JsValue.num 0.25),
        ("positive_count", JsValue.num 12),
        ("negative_count", JsValue.num 5),
        ("neutral_count", JsValue.num 8),
        ("confidence", JsValue.num 0.85)]),
     ("fundamentals", JsValue.obj
       [("pe_ratio", JsValue.num 30.48),
        ("pb_ratio", JsValue.num 43.97),
        ("roe", JsValue.num 138.02),
        ("market_cap", JsValue.num 3020000000000),
        ("rsi", JsValue.num 43.4),
        ("volatility", JsValue.num 32.25)]),
     ("recommendation", JsValue.obj
       [("action", JsValue.str "Buy"),
        ("confidence", JsValue.num 80),
        ("reasoning", JsValue.arr
          [JsValue.str "Strong fundamental metrics with healthy P/E ratio",
           JsValue.str "Positive sentiment trend in recent news",
           JsValue.str "Technical indicators showing oversold condition"])])]

/-- fetchAnalysis of the older StockAnalysis variant: only a network failure
or a body that fails to parse throws into the catch branch (which installs
the mock); the parsed body of any HTTP response, ok or not, is stored
unchanged, since this variant never checks response.ok. -/
def fetchAnalysisV1 (symbol : String) : JsFetchOutcome → JsValue
  | JsFetchOutcome.networkError => mockAnalysisJsonV1 symbol
  | JsFetchOutcome.httpResponse _ none => mockAnalysisJsonV1 symbol
  | JsFetchOutcome.httpResponse _ (some body) => body

/-! ## Display caps -/

/-- The analysis view renders news_articles.slice(0, 5). -/
def renderedNewsArticles (articles : List NewsArticle) : List NewsArticle :=
  List.take 5 articles

/-- NewsArticle interface of the home page (page.tsx); its sentiment badge is
rendered only when sentiment_score is present. -/
structure HomeNewsArticle where
  title : String
  description : String
  source : String
  sentiment_score : Option ℚ

/-- The home page stores newsResult.slice(0, 3) and renders that list. -/
def homeNewsShown (newsResult : List HomeNewsArticle) : List HomeNewsArticle :=
  List.take 3 newsResult

/-! ## Concrete sample inputs used by witnesses and counterexamples -/

/-- A concrete scored article. -/
def sampleArticle : NewsArticle :=
  { title := "Apple rallies"
    description := "Shares climb after earnings"
    content := "Apple shares climbed after a strong earnings report."
    url := "https://example.com/apple"
    source := "Example Wire"
    published_at := "2025-06-18T12:00:00Z"
    sentiment_score := 0.4 }

/-- A concrete contract-shaped backend response with confidence_score 0.8. -/
def sampleResponse : BackendResponse :=
  { symbol := "AAPL"
    complete_analysis :=
      { sentiment_analysis :=
          { overall_sentiment := 0.25
            positive_count := 2
            negative_count := 1
            neutral_count := 0
            news_articles := some [sampleArticle] }
        fundamental_analysis :=
          { fundamental_metrics :=
              { trailing_pe := 28
                price_to_book := 40
                return_on_equity := 1.2
                market_cap := 3000000000000 }
            technical_indicators := { momentum_indicators := { RSI := 55 } }
            risk_metrics := { volatility := 0.3 } }
        recommendation :=
          { action := "Hold"
            confidence_score := some 0.8
            supporting_factors := ["Stable valuation"] } } }

/-- The same response with confidence_score exactly 0. -/
def sampleResponseZeroConf : BackendResponse :=
  { symbol := "AAPL"
    complete_analysis :=
      { sentiment_analysis :=
          { overall_sentiment := 0.25
            positive_count := 2
            negative_count := 1
            neutral_count := 0
            news_articles := some [sampleArticle] }
        fundamental_analysis :=
          { fundamental_metrics :=
              { trailing_pe := 28
                price_to_book := 40
                return_on_equity := 1.2
                market_cap := 3000000000000 }
            technical_indicators := { momentum_indicators := { RSI := 55 } }
            risk_metrics := { volatility := 0.3 } }
        recommendation :=
          { action := "Hold"
            confidence_score := some 0
            supporting_factors := ["Stable valuation"] } } }

/-- A successful response whose news source yielded zero articles and whose
sentiment counts are all zero. -/
def sampleResponseZeroNews : BackendResponse :=
  { symbol := "AAPL"
    complete_analysis :=
      { sentiment_analysis :=
          { overall_sentiment := 0
            positive_count := 0
            negative_count := 0
            neutral_count := 0
            news_articles := some [] }
        fundamental_analysis :=
          { fundamental_metrics :=
              { trailing_pe := 28
                price_to_book := 40
                return_on_equity := 1.2
                market_cap := 3000000000000 }
            technical_indicators := { momentum_indicators := { RSI := 55 } }
            risk_metrics := { volatility := 0.3 } }
        recommendation :=
          { action := "Hold"
            confidence_score := some 0.8
            supporting_factors := ["Stable valuation"] } } }

/-- A concrete contract-shaped raw JSON response. -/
def sampleResponseJson : JsValue :=
  JsValue.obj
    [("symbol", JsValue.str "AAPL"),
     ("complete_analysis", JsValue.obj
       [("sentiment_analysis", JsValue.obj
          [("overall_sentiment", JsValue.num 0.25),
           ("positive_count", JsValue.num 2),
           ("negative_count", JsValue.num 1),
           ("neutral_count", JsValue.num 0),
           ("news_articles", JsValue.arr [])]),
        ("fundamental_analysis", JsValue.obj
          [("fundamental_metrics", JsValue.obj
             [("trailing_pe", JsValue.num 28),
              ("price_to_book", JsValue.num 40),
              ("return_on_equity", JsValue.num 1.2),
              ("market_cap", JsValue.num 3000000000000)]),
           ("technical_indicators", JsValue.obj
             [("momentum_indicators", JsValue.obj [("RSI", JsValue.num 55)])]),
           ("risk_metrics", JsValue.obj [("volatility", JsValue.num 0.3)])]),
        ("recommendation", JsValue.obj
          [("action", JsValue.str "Hold"),
           ("confidence_score", JsValue.num 0.8),
           ("supporting_factors", JsValue.arr [JsValue.str "Stable valuation"])])])]

/-- The same raw JSON response with extra fields outside the contract paths:
a top-level request_id and an extra quote subobject under complete_analysis. -/
def sampleResponseJsonExtra : JsValue :=
  JsValue.obj
    [("symbol", JsValue.str "AAPL"),
     ("complete_analysis", JsValue.obj
       [("sentiment_analysis", JsValue.obj
          [("overall_sentiment", JsValue.num 0.25),
           ("positive_count", JsValue.num 2),
           ("negative_count", JsValue.num 1),
           ("neutral_count", JsValue.num 0),
           ("news_articles", JsValue.arr [])]),
        ("fundamental_analysis", JsValue.obj
          [("fundamental_metrics", JsValue.obj
             [("trailing_pe", JsValue.num 28),
              ("price_to_book", JsValue.num 40),
              ("return_on_equity", JsValue.num 1.2),
              ("market_cap", JsValue.num 3000000000000)]),
           ("technical_indicators", JsValue.obj
             [("momentum_indicators", JsValue.obj [("RSI", JsValue.num 55)])]),
           ("risk_metrics", JsValue.obj [("volatility", JsValue.num 0.3)])]),
        ("recommendation", JsValue.obj
          [("action", JsValue.str "Hold"),
           ("confidence_score", JsValue.num 0.8),
           ("supporting_factors", JsValue.arr [JsValue.str "Stable valuation"])]),
        ("quote", JsValue.obj [("price", JsValue.num 201.5)])]),
     ("request_id", JsValue.str "req-42")]

/-- A concrete non-ok HTTP error body (a FastAPI-style detail object). -/
def errorBodyJson : JsValue :=
  JsValue.obj [("detail", JsValue.str "Internal Server Error")]

/-- C1: the sentiment label is a pure function of the score with strict
thresholds: label is Bullish (Positive on the badges) exactly when the score
exceeds 0.1, Bearish (Negative) exactly when it is below -0.1, and Neutral
otherwise, including at the boundary scores 0.1, -0.1 and 0; both
StockAnalysis variants and both inline badge mappings implement this same
mapping. -/
theorem C1_sentiment_label_mapping : ∀ s : ℚ,
    (getSentimentLabel s = "Bullish" ↔ 0.1 < s) ∧
    (getSentimentLabel s = "Bearish" ↔ s < -0.1) ∧
    (getSentimentLabel s = "Neutral" ↔ (-0.1 ≤ s ∧ s ≤ 0.1)) ∧
    getSentimentLabelV1 s = getSentimentLabel s ∧
    (articleBadgeLabel s = "Positive" ↔ 0.1 < s) ∧
    (articleBadgeLabel s = "Negative" ↔ s < -0.1) ∧
    (articleBadgeLabel s = "Neutral" ↔ (-0.1 ≤ s ∧ s ≤ 0.1)) ∧
    homeNewsBadgeLabel s = articleBadgeLabel s ∧
    getSentimentLabel (0.1 : ℚ) = "Neutral" ∧
    getSentimentLabel (-0.1 : ℚ) = "Neutral" ∧
    getSentimentLabel 0 = "Neutral" := by
  have b1 : getSentimentLabel (0.1 : ℚ) = "Neutral" := by norm_num [getSentimentLabel]
  have b2 : getSentimentLabel (-0.1 : ℚ) = "Neutral" := by norm_num [getSentimentLabel]
  have b3 : getSentimentLabel (0 : ℚ) = "Neutral" := by norm_num [getSentimentLabel]
  intro s
  by_cases h1 : s > 0.1
  · have e1 : getSentimentLabel s = "Bullish" := by unfold getSentimentLabel; rw [if_pos h1]
    have e2 : articleBadgeLabel s = "Positive" := by unfold articleBadgeLabel; rw [if_pos h1]
    refine ⟨?_, ?_, ?_, rfl, ?_, ?_, ?_, rfl, b1, b2, b3⟩
    · rw [e1]; exact iff_of_true rfl h1
    · rw [e1]; exact iff_of_false (by decide) (by linarith)
    · rw [e1]; exact iff_of_false (by decide) (fun h => absurd h1 (not_lt.mpr h.2))
    · rw [e2]; exact iff_of_true rfl h1
    · rw [e2]; exact iff_of_false (by decide) (by linarith)
    · rw [e2]; exact iff_of_false (by decide) (fun h => absurd h1 (not_lt.mpr h.2))
  · by_cases h2 : s < -0.1
    · have e1 : getSentimentLabel s = "Bearish" := by
        unfold getSentimentLabel; rw [if_neg h1, if_pos h2]
      have e2 : articleBadgeLabel s = "Negative" := by
        unfold articleBadgeLabel; rw [if_neg h1, if_pos h2]
      refine ⟨?_, ?_, ?_, rfl, ?_, ?_, ?_, rfl, b1, b2, b3⟩
      · rw [e1]; exact iff_of_false (by decide) h1
      · rw [e1]; exact iff_of_true rfl h2
      · rw [e1]; exact iff_of_false (by decide) (fun h => absurd h2 (not_lt.mpr h.1))
      · rw [e2]; exact iff_of_false (by decide) h1
      · rw [e2]; exact iff_of_true rfl h2
      · rw [e2]; exact iff_of_false (by decide) (fun h => absurd h2 (not_lt.mpr h.1))
    · have e1 : getSentimentLabel s = "Neutral" := by
        unfold getSentimentLabel; rw [if_neg h1, if_neg h2]
      have e2 : articleBadgeLabel s = "Neutral" := by
        unfold articleBadgeLabel; rw [if_neg h1, if_neg h2]
      refine ⟨?_, ?_, ?_, rfl, ?_, ?_, ?_, rfl, b1, b2, b3⟩
      · rw [e1]; exact iff_of_false (by decide) h1
      · rw [e1]; exact iff_of_false (by decide) h2
      · rw [e1]; exact iff_of_true rfl ⟨not_lt.mp h2, not_lt.mp h1⟩
      · rw [e2]; exact iff_of_false (by decide) h1
      · rw [e2]; exact iff_of_false (by decide) h2
      · rw [e2]; exact iff_of_true rfl ⟨not_lt.mp h2, not_lt.mp h1⟩

/-- C9: the color classifier and the label classifier agree on every score:
green exactly when the label is Bullish, red exactly when Bearish, gray
exactly when Neutral; the older variant computes the same colors. -/
theorem C9_color_label_agreement : ∀ s : ℚ,
    (getSentimentColor s = "text-green-600 bg-green-100" ↔ getSentimentLabel s = "Bullish") ∧
    (getSentimentColor s = "text-red-600 bg-red-100" ↔ getSentimentLabel s = "Bearish") ∧
    (getSentimentColor s = "text-gray-600 bg-gray-100" ↔ getSentimentLabel s = "Neutral") ∧
    getSentimentColorV1 s = getSentimentColor s := by
  intro s
  by_cases h1 : s > 0.1
  · have ec : getSentimentColor s = "text-green-600 bg-green-100" := by
      unfold getSentimentColor; rw [if_pos h1]
    have el : getSentimentLabel s = "Bullish" := by unfold getSentimentLabel; rw [if_pos h1]
    rw [ec, el]
    exact ⟨iff_of_true rfl rfl, iff_of_false (by decide) (by decide),
      iff_of_false (by decide) (by decide), ec⟩
  · by_cases h2 : s < -0.1
    · have ec : getSentimentColor s = "text-red-600 bg-red-100" := by
        unfold getSentimentColor; rw [if_neg h1, if_pos h2]
      have el : getSentimentLabel s = "Bearish" := by
        unfold getSentimentLabel; rw [if_neg h1, if_pos h2]
      rw [ec, el]
      exact ⟨iff_of_false (by decide) (by decide), iff_of_true rfl rfl,
        iff_of_false (by decide) (by decide), ec⟩
    · have ec : getSentimentColor s = "text-gray-600 bg-gray-100" := by
        unfold getSentimentColor; rw [if_neg h1, if_neg h2]
      have el : getSentimentLabel s = "Neutral" := by
        unfold getSentimentLabel; rw [if_neg h1, if_neg h2]
      rw [ec, el]
      exact ⟨iff_of_false (by decide) (by decide), iff_of_false (by decide) (by decide),
        iff_of_true rfl rfl, ec⟩

/-- C2: the transform of the newer StockAnalysis variant reads exactly the
contract field paths: any two parsed responses that agree on the top-level
symbol, the five sentiment_analysis fields, the fundamental_metrics
subobject, the RSI and volatility leaves, and the three recommendation
fields, transform to identical UI models, so the transform depends on no
other field path. -/
theorem C2_transform_reads_only_contract_paths : ∀ j1 j2 : JsValue,
    (∀ p ∈ contractPaths, j1.getPath p = j2.getPath p) →
    transformedDataJson j1 = transformedDataJson j2 := by
  intro j1 j2 h
  have hsym := h ["symbol"] (by simp [contractPaths])
  have hos := h ["complete_analysis", "sentiment_analysis", "overall_sentiment"]
    (by simp [contractPaths])
  have hpc := h ["complete_analysis", "sentiment_analysis", "positive_count"]
    (by simp [contractPaths])
  have hnc := h ["complete_analysis", "sentiment_analysis", "negative_count"]
    (by simp [contractPaths])
  have hneu := h ["complete_analysis", "sentiment_analysis", "neutral_count"]
    (by simp [contractPaths])
  have hna := h ["complete_analysis", "sentiment_analysis", "news_articles"]
    (by simp [contractPaths])
  have hfm := h ["complete_analysis", "fundamental_analysis", "fundamental_metrics"]
    (by simp [contractPaths])
  have hrsi := h ["complete_analysis", "fundamental_analysis", "technical_indicators",
    "momentum_indicators", "RSI"] (by simp [contractPaths])
  have hvol := h ["complete_analysis", "fundamental_analysis", "risk_metrics", "volatility"]
    (by simp [contractPaths])
  have hact := h ["complete_analysis", "recommendation", "action"] (by simp [contractPaths])
  have hcs := h ["complete_analysis", "recommendation", "confidence_score"]
    (by simp [contractPaths])
  have hsf := h ["complete_analysis", "recommendation", "supporting_factors"]
    (by simp [contractPaths])
  simp only [JsValue.getPath, List.foldl] at hsym hos hpc hnc hneu hna hfm hrsi hvol hact hcs hsf
  unfold transformedDataJson
  rw [hsym, hos, hpc, hnc, hneu, hna, hfm, hrsi, hvol, hact, hcs, hsf]

/-- C2 witness: a concrete contract-shaped response and the same response
with extra fields outside the contract paths transform identically. -/
theorem C2_witness :
    transformedDataJson sampleResponseJson = transformedDataJson sampleResponseJsonExtra :=
  C2_transform_reads_only_contract_paths sampleResponseJson sampleResponseJsonExtra (by
    intro p hp
    simp only [contractPaths, List.mem_cons, List.not_mem_nil, or_false] at hp
    rcases hp with rfl | rfl | rfl | rfl | rfl | rfl | rfl | rfl | rfl | rfl | rfl | rfl <;> rfl)

/-- C7: the transform from a parsed backend response to the UI model is a
pure function: byte-identical responses yield identical transformed analysis
objects, with no dependence on randomness, time or other hidden inputs. -/
theorem C7_transform_deterministic : ∀ j1 j2 : JsValue,
    j1 = j2 → transformedDataJson j1 = transformedDataJson j2 :=
  fun _ _ h => congrArg transformedDataJson h

/-- C7 witness: determinism instantiated at a concrete response. -/
theorem C7_witness :
    transformedDataJson sampleResponseJson = transformedDataJson sampleResponseJson :=
  C7_transform_deterministic sampleResponseJson sampleResponseJson rfl

/-- C3 counterexample: on a failing upstream fetch (network error) the
component installs the fixed fabricated sample as the analysis result - a
P/E of 30.48, a Buy recommendation at confidence 80 and 12 positive articles
are presented with no failure tag for a symbol whose data was never
fetched. -/
theorem C3_counterexample :
    fetchAnalysis "AAPL" FetchOutcome.networkError = mockAnalysisData "AAPL" ∧
    (fetchAnalysis "AAPL" FetchOutcome.networkError).fundamentals.pe_ratio = 30.48 ∧
    (fetchAnalysis "AAPL" FetchOutcome.networkError).recommendation.action = "Buy" ∧
    (fetchAnalysis "AAPL" FetchOutcome.networkError).recommendation.confidence = some 80 ∧
    (fetchAnalysis "AAPL" FetchOutcome.networkError).sentiment.positive_count = 12 :=
  ⟨rfl, rfl, rfl, rfl, rfl⟩

/-- C3 (amended): on every failing fetch (network error, non-ok status, or
unparseable body) the presentation layer does not return a partial result or
a tagged failure: it silently installs the fixed hardcoded sample analysis,
whose fabricated financial numbers (P/E 30.48, action Buy) are rendered the
same way as real data; the UI model has no failure marking at all. -/
theorem C3_failure_substitutes_fabricated_sample :
    ∀ (symbol : String) (body : Option BackendResponse),
    fetchAnalysis symbol FetchOutcome.networkError = mockAnalysisData symbol ∧
    fetchAnalysis symbol (FetchOutcome.httpResponse false body) = mockAnalysisData symbol ∧
    fetchAnalysis symbol (FetchOutcome.httpResponse true none) = mockAnalysisData symbol ∧
    (mockAnalysisData symbol).symbol = symbol ∧
    (mockAnalysisData symbol).fundamentals.pe_ratio = 30.48 ∧
    (mockAnalysisData symbol).recommendation.action = "Buy" :=
  fun _ _ => ⟨rfl, rfl, rfl, rfl, rfl, rfl⟩

/-- C4 counterexample: in the older StockAnalysis variant, a fetch that fails
with a non-ok HTTP status but a parseable JSON body does not fall back to the
sample object: the error body itself is installed as the analysis state,
because this variant never checks response.ok. -/
theorem C4_counterexample :
    fetchAnalysisV1 "AAPL" (JsFetchOutcome.httpResponse false (some errorBodyJson)) =
      errorBodyJson ∧
    fetchAnalysisV1 "AAPL" (JsFetchOutcome.httpResponse false (some errorBodyJson)) ≠
      mockAnalysisJsonV1 "AAPL" := by
  refine ⟨rfl, ?_⟩
  intro hEq
  simp only [fetchAnalysisV1, errorBodyJson, mockAnalysisJsonV1] at hEq
  injection hEq with hm
  injection hm with hhead _
  exact absurd (congrArg Prod.fst hhead) (by decide)

/-- C4 (amended): the newer variant falls back to the fixed sample object on
network error, on non-ok HTTP status and on an unparseable body; the older
variant falls back only on network error or an unparseable body, and installs
the parsed body unchanged on any HTTP response regardless of status; the
sample object carries the fixed constants the claim lists. -/
theorem C4_fallback_conditions :
    ∀ (symbol : String) (body : Option BackendResponse) (j : JsValue),
    fetchAnalysis symbol FetchOutcome.networkError = mockAnalysisData symbol ∧
    fetchAnalysis symbol (FetchOutcome.httpResponse false body) = mockAnalysisData symbol ∧
    fetchAnalysis symbol (FetchOutcome.httpResponse true none) = mockAnalysisData symbol ∧
    fetchAnalysisV1 symbol JsFetchOutcome.networkError = mockAnalysisJsonV1 symbol ∧
    fetchAnalysisV1 symbol (JsFetchOutcome.httpResponse true none) = mockAnalysisJsonV1 symbol ∧
    fetchAnalysisV1 symbol (JsFetchOutcome.httpResponse false (some j)) = j ∧
    (mockAnalysisData symbol).symbol = symbol ∧
    (mockAnalysisData symbol).sentiment.overall_sentiment = 0.25 ∧
    (mockAnalysisData symbol).sentiment.positive_count = 12 ∧
    (mockAnalysisData symbol).sentiment.negative_count = 5 ∧
    (mockAnalysisData symbol).sentiment.neutral_count = 8 ∧
    (mockAnalysisData symbol).fundamentals.pe_ratio = 30.48 ∧
    (mockAnalysisData symbol).fundamentals.rsi = 43.4 ∧
    (mockAnalysisData symbol).recommendation.action = "Buy" ∧
    (mockAnalysisData symbol).recommendation.confidence = some 80 ∧
    (mockAnalysisData symbol).recommendation.reasoning.length = 3 :=
  fun _ _ _ =>
    ⟨rfl, rfl, rfl, rfl, rfl, rfl, rfl, rfl, rfl, rfl, rfl, rfl, rfl, rfl, rfl, rfl⟩

/-- C5 counterexample: one transformed response stores the same backend
confidence_score 0.8 in two different units - 0.8 (a fraction of 1) in
sentiment.confidence and 80 (a percentage) in recommendation.confidence; the
UI then scales the first by 100 at render time but prints the second as-is,
so the response mixes the [0,1] unit and the percentage unit. -/
theorem C5_counterexample :
    (transformedData sampleResponse).sentiment.confidence = 0.8 ∧
    (transformedData sampleResponse).recommendation.confidence = some 80 ∧
    displayedSentimentConfidencePercent (transformedData sampleResponse) = 80 ∧
    displayedRecommendationConfidencePercent (transformedData sampleResponse) = some 80 ∧
    (transformedData sampleResponse).recommendation.confidence =
      some ((transformedData sampleResponse).sentiment.confidence * 100) := by
  refine ⟨?_, ?_, ?_, ?_, ?_⟩ <;>
    norm_num [transformedData, sampleResponse, jsOrNum, displayedSentimentConfidencePercent,
      displayedRecommendationConfidencePercent]

/-- C5 (amended): the recommendation action of the result the frontend itself
produces (the mock) is in the set Buy/Hold/Sell, and the action of a backend
response is passed through unvalidated; the confidence is not kept in one
unit across a response: sentiment.confidence stores the backend
confidence_score unscaled while recommendation.confidence stores it
multiplied by 100. -/
theorem C5_action_set_and_confidence_units :
    ∀ (symbol : String) (r : BackendResponse) (q : ℚ),
    (mockAnalysisData symbol).recommendation.action ∈ (["Buy", "Hold", "Sell"] : List String) ∧
    (r.complete_analysis.recommendation.confidence_score = some q → q ≠ 0 →
      (transformedData r).sentiment.confidence = q ∧
      (transformedData r).recommendation.confidence = some (q * 100)) := by
  intro symbol r q
  refine ⟨List.mem_cons_self _ _, ?_⟩
  intro hcs hq
  simp only [transformedData, jsOrNum, hcs, Option.map_some]
  rw [if_neg hq]
  exact ⟨rfl, rfl⟩

/-- C5 witness: the amended claim instantiated at the concrete response with
confidence_score 0.8. -/
theorem C5_witness :
    (mockAnalysisData "AAPL").recommendation.action ∈ (["Buy", "Hold", "Sell"] : List String) ∧
    ((transformedData sampleResponse).sentiment.confidence = 0.8 ∧
     (transformedData sampleResponse).recommendation.confidence = some (0.8 * 100)) :=
  ⟨(C5_action_set_and_confidence_units "AAPL" sampleResponse 0.8).1,
   (C5_action_set_and_confidence_units "AAPL" sampleResponse 0.8).2 rfl (by norm_num)⟩

/-- C6 counterexample: on fetch failure the displayed analysis pairs an empty
news_articles list with the fabricated nonzero sentiment counts 12, 5 and 8. -/
theorem C6_counterexample :
    (fetchAnalysis "AAPL" FetchOutcome.networkError).news_articles = [] ∧
    (fetchAnalysis "AAPL" FetchOutcome.networkError).sentiment.positive_count = 12 ∧
    (fetchAnalysis "AAPL" FetchOutcome.networkError).sentiment.negative_count = 5 ∧
    (fetchAnalysis "AAPL" FetchOutcome.networkError).sentiment.neutral_count = 8 :=
  ⟨rfl, rfl, rfl, rfl⟩

/-- C6 (amended): for a successful backend response, the transform passes the
article list and the three sentiment counts through unchanged, so a response
with zero articles and zero counts displays as an empty sequence with all
counts zero; the fallback path, however, shows an empty list with fabricated
counts. -/
theorem C6_zero_articles_passthrough : ∀ r : BackendResponse,
    r.complete_analysis.sentiment_analysis.news_articles = some [] →
    r.complete_analysis.sentiment_analysis.positive_count = 0 →
    r.complete_analysis.sentiment_analysis.negative_count = 0 →
    r.complete_analysis.sentiment_analysis.neutral_count = 0 →
    (transformedData r).news_articles = [] ∧
    (transformedData r).sentiment.positive_count = 0 ∧
    (transformedData r).sentiment.negative_count = 0 ∧
    (transformedData r).sentiment.neutral_count = 0 := by
  intro r h1 h2 h3 h4
  refine ⟨?_, ?_, ?_, ?_⟩ <;>
    simp [transformedData, jsOrArticles, h1, h2, h3, h4]

/-- C6 witness: the amended claim at a concrete zero-article, zero-count
response. -/
theorem C6_witness :
    (transformedData sampleResponseZeroNews).news_articles = [] ∧
    (transformedData sampleResponseZeroNews).sentiment.positive_count = 0 ∧
    (transformedData sampleResponseZeroNews).sentiment.negative_count = 0 ∧
    (transformedData sampleResponseZeroNews).sentiment.neutral_count = 0 :=
  C6_zero_articles_passthrough sampleResponseZeroNews rfl rfl rfl rfl

/-- C8: the analysis view renders exactly the first five articles of
news_articles and the home page exactly the first three fetched articles, so
the displayed lists are capped at 5 and 3 however many articles the upstream
returned. -/
theorem C8_display_caps :
    ∀ (articles : List NewsArticle) (newsResult : List HomeNewsArticle),
    renderedNewsArticles articles = List.take 5 articles ∧
    (renderedNewsArticles articles).length ≤ 5 ∧
    homeNewsShown newsResult = List.take 3 newsResult ∧
    (homeNewsShown newsResult).length ≤ 3 := by
  intro articles newsResult
  exact ⟨rfl, List.length_take_le 5 articles, rfl, List.length_take_le 3 newsResult⟩

/-- C10: the || 0.85 fallback makes the displayed sentiment confidence 0.85
whenever the backend confidence_score is absent, null or exactly 0, and in
consequence the displayed sentiment confidence can never be 0. -/
theorem C10_confidence_zero_fallback : ∀ r : BackendResponse,
    ((r.complete_analysis.recommendation.confidence_score = none ∨
      r.complete_analysis.recommendation.confidence_score = some 0) →
      (transformedData r).sentiment.confidence = 0.85) ∧
    (transformedData r).sentiment.confidence ≠ 0 := by
  intro r
  constructor
  · intro h
    rcases h with h | h <;> simp [transformedData, jsOrNum, h]
  · rcases hcs : r.complete_analysis.recommendation.confidence_score with _ | q
    · simp only [transformedData, jsOrNum, hcs]
      norm_num
    · by_cases hq : q = 0
      · simp only [transformedData, jsOrNum, hcs, hq]
        norm_num
      · simp only [transformedData, jsOrNum, hcs]
        rw [if_neg hq]
        exact hq

/-- C10 witness: a backend confidence_score of exactly 0 is displayed as the
default 0.85 and not as 0. -/
theorem C10_witness :
    (transformedData sampleResponseZeroConf).sentiment.confidence = 0.85 ∧
    (transformedData sampleResponseZeroConf).sentiment.confidence ≠ 0 :=
  ⟨(C10_confidence_zero_fallback sampleResponseZeroConf).1 (Or.inr rfl),
   (C10_confidence_zero_fallback sampleResponseZeroConf).2⟩
